import Mathlib

/-!
Shallow embedding of the EcoScheduler scheduling core
(`energy_scheduler.py` and `enhanced_scheduler.py`).

Modelling conventions:
* Python floats are rationals (every constant in the source is an exact
  decimal, so no rounding behaviour is lost for the properties proved here).
* `datetime` values are rational second-offsets from the start of the run
  (`datetime.now()` at the top of `create_optimal_schedule` is offset 0);
  `timedelta(minutes=k)` is `60 * k`.
* A Python exception (the `KeyError` raised by subscripting the
  energy-per-second table with an unknown tier) is `Option.none`, and it
  propagates through callers exactly as an exception would.
* Strings handled character by character by the task-list parser are
  `List Char`; Python `str.strip`, `str.split` and `str.isdigit` are
  re-implemented structurally below.
* The dynamic strings interpolated into deferral-reason messages (battery
  percentage, temperature) are not claim-relevant; each reason message is
  represented by one constructor of the `DeferReason` enumeration.
-/

namespace EcoScheduler

/-- A task parsed from `tasks.txt`: `{'name': name, 'duration': duration}` in
the source. Durations come from `int(...)` applied to a digit-only string,
hence `Nat`. -/
structure Task where
  name : String
  duration : Nat
deriving DecidableEq

/-- The `profiles.json` mapping from task name to energy-tier string.
`none` means the name is absent from the mapping. -/
def Profiles := String → Option String

/-- The system-information record parsed from `monitor.txt`
(`self.system_info`). A field is `none` when its key is absent from the
file; every read in the source goes through `dict.get(key, default)`,
modelled by `Option.getD`. -/
structure SystemInfo where
  battery_percent : Option ℚ := none
  on_ac : Option Bool := none
  load_category : Option String := none
  temperature : Option ℚ := none
  system_stress : Option String := none
  battery_factor : Option ℚ := none
  cpu_factor : Option ℚ := none
  thermal_factor : Option ℚ := none
  power_factor : Option ℚ := none
deriving DecidableEq

/-- `EnergyBasedScheduler.adjust_energy_capacity`: base 100, battery bracket
applied only when not on AC, load bracket applied independently, then
`max(20, int(base_capacity))`. The truncation `int(...)` is `Int.floor`
here, which agrees with Python truncation because the intermediate value is
a product of nonnegative constants. -/
def adjust_energy_capacity (info : SystemInfo) : ℤ :=
  let battery := info.battery_percent.getD 100
  let on_ac := info.on_ac.getD true
  let cpu_load := info.load_category.getD "low"
  let base1 : ℚ :=
    if on_ac = false then
      if battery < 20 then 100 * 0.3
      else if battery < 30 then 100 * 0.5
      else if battery < 50 then 100 * 0.7
      else 100
    else 100
  let base2 : ℚ :=
    if cpu_load = "high" then base1 * 0.6
    else if cpu_load = "medium" then base1 * 0.8
    else base1
  max 20 ⌊base2⌋

/-- The fixed lookup table `{'low': 5, 'medium': 15, 'high': 30}` used by
`calculate_task_energy`. Direct subscripting raises `KeyError` on any other
string, modelled by `none`. -/
def energyPerSecondTable (level : String) : Option Nat :=
  if level = "low" then some 5
  else if level = "medium" then some 15
  else if level = "high" then some 30
  else none

/-- The dictionary returned by `calculate_task_energy`. -/
structure EnergyData where
  total_energy : Nat
  energy_per_second : Nat
  energy_level : String
  duration : Nat
deriving DecidableEq

/-- `EnergyBasedScheduler.calculate_task_energy`: the tier of a task name
missing from the profile mapping defaults to `'medium'`
(`self.profiles.get(task_name, 'medium')`), then the energy-per-second table
is subscripted directly, so a tier string outside `{low, medium, high}`
raises `KeyError` (modelled as `none`). -/
def calculate_task_energy (profiles : Profiles) (task : Task) : Option EnergyData :=
  let energy_level := (profiles task.name).getD "medium"
  match energyPerSecondTable energy_level with
  | none => none
  | some eps => some ⟨eps * task.duration, eps, energy_level, task.duration⟩

/-- The base-priority table `{'low': 3, 'medium': 2, 'high': 1}` of
`get_task_priority`; subscripted directly, so unknown tiers raise
`KeyError`. -/
def staticBasePriorityTable (level : String) : Option ℚ :=
  if level = "low" then some 3
  else if level = "medium" then some 2
  else if level = "high" then some 1
  else none

/-- `EnergyBasedScheduler.get_task_priority`: base priority from the tier,
an efficiency factor `max(1, 30 - energy_per_second) / 30`, a duration
factor `max(0.5, 10 - duration) / 10`, and a system factor that is 1.0
except on battery below 30% off AC, where low-tier tasks get 1.5 and
high-tier tasks get 0.3. -/
def get_task_priority (info : SystemInfo) (ed : EnergyData) : Option ℚ :=
  (staticBasePriorityTable ed.energy_level).map fun base_priority =>
    let efficiency_factor : ℚ := max 1 (30 - (ed.energy_per_second : ℚ)) / 30
    let duration_factor : ℚ := max 0.5 (10 - (ed.duration : ℚ)) / 10
    let battery := info.battery_percent.getD 100
    let on_ac := info.on_ac.getD true
    let system_factor : ℚ :=
      if on_ac = false ∧ battery < 30 then
        if ed.energy_level = "low" then 1.5
        else if ed.energy_level = "high" then 0.3
        else 1.0
      else 1.0
    base_priority * efficiency_factor * duration_factor * system_factor

/-- One entry of a time slot's task list in `create_optimal_schedule`:
the task, its energy data, and the synthetic start and end offsets
(seconds from the start of the run). -/
structure SlotTask where
  task : Task
  energy_data : EnergyData
  start_time : ℚ
  end_time : ℚ
deriving DecidableEq

/-- One time slot produced by `create_optimal_schedule`. -/
structure TimeSlot where
  start_time : ℚ
  end_time : ℚ
  tasks : List SlotTask
  total_energy : Nat
deriving DecidableEq

/-- The loop state of the packing pass of `create_optimal_schedule`:
the closed slots, the open slot's tasks and accumulated energy, and the
open slot's start offset. -/
structure PackState where
  time_slots : List TimeSlot
  current_slot_tasks : List SlotTask
  current_slot_energy : Nat
  slot_start_time : ℚ
deriving DecidableEq

/-- One iteration of the packing loop of `create_optimal_schedule`: if the
task fits (`current_slot_energy + required_energy <= energy_capacity`) it is
appended to the open slot with synthetic times derived from accumulated
energy over the task's energy rate; otherwise the open slot is closed
(appended to the slot list only when non-empty) and a new slot is seeded
with the task, its start advanced by `len(time_slots)` minutes. -/
def packStep (capacity : ℤ) (s : PackState) (item : Task × EnergyData) : PackState :=
  let required := item.2.total_energy
  if (s.current_slot_energy + required : ℤ) ≤ capacity then
    { s with
      current_slot_tasks := s.current_slot_tasks ++
        [⟨item.1, item.2,
          s.slot_start_time + (s.current_slot_energy : ℚ) / (item.2.energy_per_second : ℚ),
          s.slot_start_time + ((s.current_slot_energy : ℚ) + (required : ℚ)) / (item.2.energy_per_second : ℚ)⟩],
      current_slot_energy := s.current_slot_energy + required }
  else
    let closed :=
      if s.current_slot_tasks.isEmpty then s.time_slots
      else s.time_slots ++
        [⟨s.slot_start_time, s.slot_start_time + 60, s.current_slot_tasks, s.current_slot_energy⟩]
    let newStart := s.slot_start_time + 60 * (closed.length : ℚ)
    { time_slots := closed,
      current_slot_tasks := [⟨item.1, item.2, newStart, newStart + (item.2.duration : ℚ)⟩],
      current_slot_energy := required,
      slot_start_time := newStart }

/-- The packing pass of `create_optimal_schedule` over the already sorted
task list: fold the loop body over the items, then append the final open
slot when it is non-empty. -/
def packTasks (capacity : ℤ) (items : List (Task × EnergyData)) : List TimeSlot :=
  let s := items.foldl (packStep capacity) ⟨[], [], 0, 0⟩
  if s.current_slot_tasks.isEmpty then s.time_slots
  else s.time_slots ++
    [⟨s.slot_start_time, s.slot_start_time + 60, s.current_slot_tasks, s.current_slot_energy⟩]

/-- One entry of `task_energy_data` in `create_optimal_schedule`: the task,
its energy data, and its static priority. Either computation can raise
`KeyError` on a malformed tier, hence `Option`. -/
def scheduleItem (profiles : Profiles) (info : SystemInfo) (task : Task) :
    Option (Task × EnergyData × ℚ) := do
  let ed ← calculate_task_energy profiles task
  let p ← get_task_priority info ed
  return (task, ed, p)

/-- The construction of the `task_energy_data` list in
`create_optimal_schedule`, in task-list order; a `KeyError` on any task
aborts the whole computation, as the exception would. -/
def scheduleItems (profiles : Profiles) (info : SystemInfo) : List Task →
    Option (List (Task × EnergyData × ℚ))
  | [] => some []
  | t :: ts => do
    let x ← scheduleItem profiles info t
    let xs ← scheduleItems profiles info ts
    return x :: xs

/-- The sort key of `create_optimal_schedule`
(`key=lambda x: (-x['priority'], x['energy_data']['total_energy'])`) as the
total preorder it induces: descending priority, ties broken by ascending
total energy. Python's sort is stable, and a stable sort with respect to a
total preorder has a unique result, so `List.mergeSort` with this relation
is a faithful model. -/
def packKeyLE (a b : Task × EnergyData × ℚ) : Bool :=
  decide (b.2.2 < a.2.2 ∨ (a.2.2 = b.2.2 ∧ a.2.1.total_energy ≤ b.2.1.total_energy))

/-- `EnergyBasedScheduler.create_optimal_schedule`: build the energy and
priority data for every task, sort by the packing key, then run the
bin-packing pass against the adjusted energy capacity. -/
def create_optimal_schedule (profiles : Profiles) (info : SystemInfo)
    (tasks : List Task) : Option (List TimeSlot) := do
  let items ← scheduleItems profiles info tasks
  let sorted := items.mergeSort packKeyLE
  return packTasks (adjust_energy_capacity info) (sorted.map fun x => (x.1, x.2.1))

/-- The dictionary returned by
`EnhancedEcoScheduler.calculate_dynamic_priority`. -/
structure PriorityInfo where
  base_priority : ℚ
  adapted_priority : ℚ
  energy_level : String
  battery_factor : ℚ
  cpu_factor : ℚ
  thermal_factor : ℚ
  power_factor : ℚ
deriving DecidableEq

/-- `EnhancedEcoScheduler.calculate_dynamic_priority`: base priorities
`{'low': 1, 'medium': 2, 'high': 3}` read with `.get(base_energy, 2)`, the
four adaptation factors read from the system information with default 1.0,
and the energy multiplier `{'low': 1.0, 'medium': 1.2, 'high': 1.5}` read
with `.get(base_energy, 1.0)`. Total: no lookup can fail. -/
def calculate_dynamic_priority (profiles : Profiles) (info : SystemInfo)
    (task : Task) : PriorityInfo :=
  let base_energy := (profiles task.name).getD "medium"
  let base_priority : ℚ :=
    if base_energy = "low" then 1
    else if base_energy = "medium" then 2
    else if base_energy = "high" then 3
    else 2
  let battery_factor := info.battery_factor.getD 1.0
  let cpu_factor := info.cpu_factor.getD 1.0
  let thermal_factor := info.thermal_factor.getD 1.0
  let power_factor := info.power_factor.getD 1.0
  let energy_multiplier : ℚ :=
    if base_energy = "low" then 1.0
    else if base_energy = "medium" then 1.2
    else if base_energy = "high" then 1.5
    else 1.0
  { base_priority := base_priority,
    adapted_priority := base_priority *
      (battery_factor * cpu_factor * thermal_factor * power_factor * energy_multiplier),
    energy_level := base_energy,
    battery_factor := battery_factor,
    cpu_factor := cpu_factor,
    thermal_factor := thermal_factor,
    power_factor := power_factor }

/-- The sort relation of `run_scheduler`
(`sort(key=lambda x: x[1]['adapted_priority'], reverse=True)`): descending
adapted priority. Python's sort is stable also under `reverse=True`, so
`List.mergeSort` with this total preorder is a faithful model. -/
def dynPriorityGE (a b : Task × PriorityInfo) : Bool :=
  decide (b.2.adapted_priority ≤ a.2.adapted_priority)

/-- The execution order of `EnhancedEcoScheduler.run_scheduler`: every task
paired with its dynamic priority, stably sorted by descending adapted
priority. -/
def run_scheduler_order (profiles : Profiles) (info : SystemInfo)
    (tasks : List Task) : List (Task × PriorityInfo) :=
  (tasks.map fun t => (t, calculate_dynamic_priority profiles info t)).mergeSort dynPriorityGE

/-- The deferral-reason messages of
`EnhancedEcoScheduler.should_defer_task`, one constructor per formatted
message (the interpolated battery/temperature values are dropped). -/
inductive DeferReason where
  | batteryCriticallyLow
  | batteryLow
  | cpuOverloaded
  | systemOverheating
  | systemHot
  | highSystemStress
deriving DecidableEq

/-- `EnhancedEcoScheduler.should_defer_task` (the full five-rule policy):
collect all matching reasons and defer iff the list is non-empty. The two
battery rules and the two thermal rules are `if`/`elif` pairs in the
source. -/
def should_defer_task_full (info : SystemInfo) (energy_level : String) :
    Bool × List DeferReason :=
  let battery := info.battery_percent.getD 100
  let on_ac := info.on_ac.getD true
  let cpu_load := info.load_category.getD "low"
  let temperature := info.temperature.getD 0
  let system_stress := info.system_stress.getD "low"
  let batteryReasons :=
    if on_ac = false ∧ battery < 20 ∧ energy_level = "high" then
      [DeferReason.batteryCriticallyLow]
    else if on_ac = false ∧ battery < 30 ∧ energy_level = "high" then
      [DeferReason.batteryLow]
    else []
  let cpuReasons :=
    if cpu_load = "high" ∧ (energy_level = "high" ∨ energy_level = "medium") then
      [DeferReason.cpuOverloaded]
    else []
  let thermalReasons :=
    if 80 < temperature ∧ energy_level = "high" then
      [DeferReason.systemOverheating]
    else if 70 < temperature ∧ (energy_level = "high" ∨ energy_level = "medium") then
      [DeferReason.systemHot]
    else []
  let stressReasons :=
    if system_stress = "high" ∧ energy_level = "high" then
      [DeferReason.highSystemStress]
    else []
  let defer_reasons := batteryReasons ++ cpuReasons ++ thermalReasons ++ stressReasons
  (decide (0 < defer_reasons.length), defer_reasons)

/-- `EnergyBasedScheduler.should_defer_task` (the reduced two-rule policy of
the slot-packing executor path): a single battery rule (below 30% off AC,
high tier) and the CPU-overload rule; returns at most one reason. -/
def should_defer_task_reduced (info : SystemInfo) (energy_level : String) :
    Bool × Option DeferReason :=
  let battery := info.battery_percent.getD 100
  let on_ac := info.on_ac.getD true
  let cpu_load := info.load_category.getD "low"
  if on_ac = false ∧ battery < 30 ∧ energy_level = "high" then
    (true, some DeferReason.batteryLow)
  else if cpu_load = "high" ∧ (energy_level = "high" ∨ energy_level = "medium") then
    (true, some DeferReason.cpuOverloaded)
  else
    (false, none)

/-- An entry of `self.completed_tasks` (or of `self.current_executing`):
the task, its energy data and its recorded timings. -/
structure ExecRecord where
  task : Task
  energy_data : EnergyData
  start_time : ℚ := 0
  end_time : ℚ := 0
  actual_duration : ℚ := 0
deriving DecidableEq

/-- An entry of `self.deferred_tasks`. -/
structure DeferRecord where
  task : Task
  energy_data : EnergyData
  defer_reasons : List DeferReason := []
deriving DecidableEq

/-- The run state read by `generate_execution_report`: the task list, the
profile mapping, the system information, and the three record collections
(`current_executing` is a dictionary; only its size and values are read, so
a list suffices). -/
structure SchedulerState where
  tasks : List Task
  profiles : Profiles
  system_info : SystemInfo
  completed_tasks : List ExecRecord
  deferred_tasks : List DeferRecord
  current_executing : List ExecRecord

/-- The report dictionary built by `generate_execution_report`
(the three verbatim record lists are omitted: they are copied unchanged). -/
structure ExecutionReport where
  total_tasks : Nat
  completed : Nat
  deferred : Nat
  currently_executing : Nat
  completion_rate : ℚ
  total_energy_used : Nat
  total_energy_planned : Nat
  energy_efficiency : ℚ
  energy_capacity : ℤ
deriving DecidableEq

/-- The generator expression
`sum(self.calculate_task_energy(task)['total_energy'] for task in self.tasks)`:
recomputes every task's energy, so a malformed tier raises `KeyError`. -/
def plannedEnergies (profiles : Profiles) : List Task → Option (List Nat)
  | [] => some []
  | t :: ts => do
    let ed ← calculate_task_energy profiles t
    let rest ← plannedEnergies profiles ts
    return ed.total_energy :: rest

/-- `EnergyBasedScheduler.generate_execution_report`: counts of the four
collections, `completion_rate = completed/total*100` guarded by the task
list's truthiness, energy used summed over completed records, energy
planned recomputed over all tasks, `energy_efficiency = used/planned*100`
guarded by the planned total's truthiness. -/
def generate_execution_report (s : SchedulerState) : Option ExecutionReport := do
  let planned ← plannedEnergies s.profiles s.tasks
  let total_energy_used := (s.completed_tasks.map fun r => r.energy_data.total_energy).sum
  let total_energy_planned := planned.sum
  return {
    total_tasks := s.tasks.length,
    completed := s.completed_tasks.length,
    deferred := s.deferred_tasks.length,
    currently_executing := s.current_executing.length,
    completion_rate :=
      if s.tasks.isEmpty then 0
      else (s.completed_tasks.length : ℚ) / (s.tasks.length : ℚ) * 100,
    total_energy_used := total_energy_used,
    total_energy_planned := total_energy_planned,
    energy_efficiency :=
      if total_energy_planned = 0 then 0
      else (total_energy_used : ℚ) / (total_energy_planned : ℚ) * 100,
    energy_capacity := adjust_energy_capacity s.system_info }

/-- Python `str.strip` over characters: drop leading and trailing
whitespace. -/
def pyStripChars (l : List Char) : List Char :=
  ((l.dropWhile Char.isWhitespace).reverse.dropWhile Char.isWhitespace).reverse

/-- Python `str.split(sep)` over characters for a one-character separator:
`''.split(',') == ['']`, and every separator occurrence opens a new field. -/
def pySplit (sep : Char) : List Char → List (List Char)
  | [] => [[]]
  | c :: cs =>
    let rest := pySplit sep cs
    if c = sep then [] :: rest
    else
      match rest with
      | r :: rs => (c :: r) :: rs
      | [] => [[c]]

/-- Python `str.isdigit` restricted to ASCII: non-empty and all digits. -/
def str_isdigit (l : List Char) : Bool :=
  !l.isEmpty && l.all Char.isDigit

/-- Numeric value of a digit-only character list, as `int(...)` computes
it. -/
def digitsToNat (l : List Char) : Nat :=
  l.foldl (fun n c => 10 * n + (c.toNat - 48)) 0

/-- The per-line body of `load_tasks` (identical in
`EnhancedEcoScheduler.load_tasks` and
`EnergyBasedScheduler.load_tasks_and_profiles`): strip the line, skip it
when blank or starting with `#`, split on commas, require at least two
fields, and default the duration to 5 unless the stripped duration field is
digit-only. Returns `none` when the line contributes no task. -/
def parse_task_line (line : List Char) : Option Task :=
  let l := pyStripChars line
  if l.isEmpty then none
  else if l.head? = some '#' then none
  else
    match pySplit ',' l with
    | p0 :: p1 :: _ =>
      let d := pyStripChars p1
      some ⟨⟨p0⟩, if str_isdigit d then digitsToNat d else 5⟩
    | _ => none

/-- `load_tasks`: the tasks contributed by each input line, in order. -/
def load_tasks (lines : List (List Char)) : List Task :=
  lines.filterMap parse_task_line

end EcoScheduler

namespace EcoScheduler

/-! ## Spec-side definitions, written from the specification text, for the
claims that compare the code with a stated formula. -/

/-- Spec algorithm (section 4.1): battery bracket multiplier, applied only
when not on AC power. -/
def specBatteryMultiplier (info : SystemInfo) : ℚ :=
  if info.on_ac.getD true = false then
    if info.battery_percent.getD 100 < 20 then 0.3
    else if info.battery_percent.getD 100 < 30 then 0.5
    else if info.battery_percent.getD 100 < 50 then 0.7
    else 1
  else 1

/-- Spec algorithm (section 4.1): load bracket multiplier. -/
def specLoadMultiplier (info : SystemInfo) : ℚ :=
  if info.load_category.getD "low" = "high" then 0.6
  else if info.load_category.getD "low" = "medium" then 0.8
  else 1

/-! ## Helper lemmas -/

lemma floor_le_hundred {q : ℚ} (h : q ≤ 100) : ⌊q⌋ ≤ 100 := by
  have h2 : ⌊q⌋ ≤ ⌊(100 : ℚ)⌋ := Int.floor_le_floor h
  have h3 : ⌊(100 : ℚ)⌋ = 100 := by
    rw [show (100 : ℚ) = ((100 : ℤ) : ℚ) by norm_num, Int.floor_intCast]
  omega

/-! ## C7 -/

/-- C7: for every SystemState, `adjust_energy_capacity` equals the spec
algorithm (base 100 scaled by the battery bracket only off AC, independently
scaled by the load bracket, clamped to a minimum of 20 after integer
truncation), and the result always satisfies `20 ≤ capacity ≤ 100`.
Determinism and totality hold because the model is a Lean function. -/
theorem C7_energy_capacity_model (info : SystemInfo) :
    adjust_energy_capacity info =
      max 20 ⌊(100 : ℚ) * specBatteryMultiplier info * specLoadMultiplier info⌋
    ∧ 20 ≤ adjust_energy_capacity info ∧ adjust_energy_capacity info ≤ 100 := by
  refine ⟨?_, ?_, ?_⟩
  · simp only [adjust_energy_capacity, specBatteryMultiplier, specLoadMultiplier]
    split_ifs <;> norm_num
  · simp only [adjust_energy_capacity]
    exact le_max_left _ _
  · simp only [adjust_energy_capacity]
    split_ifs <;> exact max_le (by norm_num) (floor_le_hundred (by norm_num))

/-! ## C4 -/

/-- C4 counterexample: a task whose profile maps it to the tier string
`"turbo"` (outside `{low, medium, high}`) makes `calculate_task_energy`
raise `KeyError` (modelled as `none`): unknown tier values do not default to
`medium`, contrary to the claim that the function never fails. -/
theorem C4_unknown_tier_fails :
    calculate_task_energy (fun n => if n = "render" then some "turbo" else none)
      ⟨"render", 3⟩ = none := by decide

/-- C4 (amended): `calculate_task_energy` is pure, uses exactly the fixed
table `{low: 5, medium: 15, high: 30}` and returns
`totalEnergy = energyPerSecond * duration`; a task name missing from the
profile mapping defaults to the `medium` tier, but a tier value outside
`{low, medium, high}` stored in the mapping makes the lookup fail rather
than defaulting to `medium`. -/
theorem C4_task_energy_model (profiles : Profiles) (task : Task)
    (h : (profiles task.name).getD "medium" = "low" ∨
         (profiles task.name).getD "medium" = "medium" ∨
         (profiles task.name).getD "medium" = "high") :
    calculate_task_energy profiles task = some
      { total_energy :=
          (if (profiles task.name).getD "medium" = "low" then 5
           else if (profiles task.name).getD "medium" = "medium" then 15
           else 30) * task.duration,
        energy_per_second :=
          if (profiles task.name).getD "medium" = "low" then 5
          else if (profiles task.name).getD "medium" = "medium" then 15
          else 30,
        energy_level := (profiles task.name).getD "medium",
        duration := task.duration } := by
  rcases h with h | h | h <;>
    simp [calculate_task_energy, energyPerSecondTable, h]

/-- C4 witness: a task name absent from the profile mapping defaults to the
`medium` tier and rate 15, so a 4-second task plans 60 energy units. -/
theorem C4_task_energy_model_witness :
    calculate_task_energy (fun _ => none) ⟨"backup", 4⟩ =
      some ⟨60, 15, "medium", 4⟩ :=
  (C4_task_energy_model (fun _ => none) ⟨"backup", 4⟩
    (Or.inr (Or.inl rfl))).trans (by decide)

end EcoScheduler

namespace EcoScheduler

/-! ## C9 -/

/-- C9 counterexample: the input line `backup` is neither blank nor a
comment after stripping, so the claim says it is still loaded as a task
with the default duration 5; but the source requires at least two
comma-separated fields (`len(parts) >= 2`), so a record whose duration
field is missing entirely is dropped. -/
theorem C9_missing_duration_dropped :
    parse_task_line "backup".toList = none ∧
    pyStripChars "backup".toList ≠ [] ∧
    (pyStripChars "backup".toList).head? ≠ some '#' := by decide

/-- C9 (amended): blank lines and lines starting with `#` (after stripping)
are ignored; a remaining line with at least two comma-separated fields
yields a task whose duration defaults to 5 whenever the stripped duration
field is non-numeric (including empty); but a remaining line with fewer
than two fields (duration field missing entirely) is dropped, not loaded. -/
theorem C9_task_parsing (line : List Char) :
    (pyStripChars line = [] → parse_task_line line = none)
    ∧ ((pyStripChars line).head? = some '#' → parse_task_line line = none)
    ∧ (∀ p0 p1 rest, pyStripChars line ≠ [] → (pyStripChars line).head? ≠ some '#' →
        pySplit ',' (pyStripChars line) = p0 :: p1 :: rest →
        parse_task_line line = some ⟨⟨p0⟩,
          if str_isdigit (pyStripChars p1) then digitsToNat (pyStripChars p1) else 5⟩)
    ∧ (∀ p0, pyStripChars line ≠ [] → (pyStripChars line).head? ≠ some '#' →
        pySplit ',' (pyStripChars line) = [p0] →
        parse_task_line line = none) := by
  refine ⟨fun h => ?_, fun h => ?_, fun p0 p1 rest h1 h2 h3 => ?_, fun p0 h1 h2 h3 => ?_⟩
  · simp [parse_task_line, h]
  · have hne : ¬ (pyStripChars line).isEmpty := by
      cases hl : pyStripChars line with
      | nil => rw [hl] at h; simp at h
      | cons c cs => simp [hl]
    simp [parse_task_line, hne, h]
  · simp only [parse_task_line, List.isEmpty_iff, h1, if_false, h2, h3]
  · simp only [parse_task_line, List.isEmpty_iff, h1, if_false, h2, h3]

/-- C9 witness: a line whose duration field is present but non-numeric is
loaded with the default duration 5. -/
theorem C9_task_parsing_witness :
    parse_task_line "sync,abc".toList = some ⟨"sync", 5⟩ :=
  ((C9_task_parsing "sync,abc".toList).2.2.1 "sync".toList "abc".toList []
    (by decide) (by decide) (by decide)).trans (by decide)

/-! ## C10 -/

/-- C10: the reduced two-rule deferral policy of the slot-packing executor
path refines the full five-rule policy: whenever the reduced policy defers
a task, the full policy evaluated on the same tier and system state also
defers it. -/
theorem C10_reduced_refines_full (info : SystemInfo) (level : String)
    (h : (should_defer_task_reduced info level).1 = true) :
    (should_defer_task_full info level).1 = true := by
  simp only [should_defer_task_reduced] at h
  simp only [should_defer_task_full]
  split_ifs at h with h1 h2 <;> split_ifs <;> simp_all

/-- C10 witness: battery at 25% off AC with a high-tier task is deferred by
both the reduced and the full policy. -/
theorem C10_reduced_refines_full_witness :
    (should_defer_task_reduced
        { battery_percent := some 25, on_ac := some false } "high").1 = true ∧
    (should_defer_task_full
        { battery_percent := some 25, on_ac := some false } "high").1 = true :=
  ⟨by decide, C10_reduced_refines_full
    { battery_percent := some 25, on_ac := some false } "high" (by decide)⟩

end EcoScheduler

namespace EcoScheduler

/-! ## C3 -/

/-- Spec rule (section 4.4.1): not on AC, battery below 20%, high tier. -/
def ruleBatteryCritical (info : SystemInfo) (level : String) : Prop :=
  info.on_ac.getD true = false ∧ info.battery_percent.getD 100 < 20 ∧ level = "high"

/-- Spec rule (section 4.4.1): not on AC, battery below 30%, high tier. -/
def ruleBatteryLow (info : SystemInfo) (level : String) : Prop :=
  info.on_ac.getD true = false ∧ info.battery_percent.getD 100 < 30 ∧ level = "high"

/-- Spec rule (section 4.4.1): load category high, tier medium or high. -/
def ruleCpuOverloaded (info : SystemInfo) (level : String) : Prop :=
  info.load_category.getD "low" = "high" ∧ (level = "high" ∨ level = "medium")

/-- Spec rule (section 4.4.1): temperature above 80, high tier. -/
def ruleOverheating (info : SystemInfo) (level : String) : Prop :=
  80 < info.temperature.getD 0 ∧ level = "high"

/-- Spec rule (section 4.4.1): temperature above 70, tier medium or high. -/
def ruleHot (info : SystemInfo) (level : String) : Prop :=
  70 < info.temperature.getD 0 ∧ (level = "high" ∨ level = "medium")

/-- Spec rule (section 4.4.1): system stress high, high tier. -/
def ruleStress (info : SystemInfo) (level : String) : Prop :=
  info.system_stress.getD "low" = "high" ∧ level = "high"

lemma mem_rulePair {α : Type} {p q : Prop} [Decidable p] [Decidable q] (a b x : α) :
    (x ∈ if p then [a] else if q then [b] else []) ↔
      ((p ∧ x = a) ∨ (¬ p ∧ q ∧ x = b)) := by
  split_ifs <;> simp_all

lemma mem_ruleSingle {α : Type} {p : Prop} [Decidable p] (a x : α) :
    (x ∈ if p then [a] else []) ↔ (p ∧ x = a) := by
  split_ifs <;> simp_all

lemma pos_rulePair {α : Type} {p q : Prop} [Decidable p] [Decidable q] (a b : α) :
    (0 < (if p then [a] else if q then [b] else []).length) ↔ (p ∨ q) := by
  split_ifs <;> simp_all

lemma pos_ruleSingle {α : Type} {p : Prop} [Decidable p] (a : α) :
    (0 < (if p then [a] else []).length) ↔ p := by
  split_ifs <;> simp_all

lemma pos_add_iff {m n : Nat} : 0 < m + n ↔ 0 < m ∨ 0 < n := by omega

/-- C3: the full deferral policy defers iff at least one of the five spec
rules fires; each reason appears in the collected list exactly when its
rule fires (the second rule of each `if`/`elif` pair only when the first
did not); the paired battery and thermal reasons are mutually exclusive;
and on a system-information record with every field missing the policy
never defers (missing fields behave as condition not met; the function is
total by construction). -/
theorem C3_full_deferral_policy (info : SystemInfo) (level : String) :
    ((should_defer_task_full info level).1 = true ↔
      (ruleBatteryCritical info level ∨ ruleBatteryLow info level ∨
       ruleCpuOverloaded info level ∨ ruleOverheating info level ∨
       ruleHot info level ∨ ruleStress info level))
    ∧ (DeferReason.batteryCriticallyLow ∈ (should_defer_task_full info level).2 ↔
        ruleBatteryCritical info level)
    ∧ (DeferReason.batteryLow ∈ (should_defer_task_full info level).2 ↔
        (¬ ruleBatteryCritical info level ∧ ruleBatteryLow info level))
    ∧ (DeferReason.cpuOverloaded ∈ (should_defer_task_full info level).2 ↔
        ruleCpuOverloaded info level)
    ∧ (DeferReason.systemOverheating ∈ (should_defer_task_full info level).2 ↔
        ruleOverheating info level)
    ∧ (DeferReason.systemHot ∈ (should_defer_task_full info level).2 ↔
        (¬ ruleOverheating info level ∧ ruleHot info level))
    ∧ (DeferReason.highSystemStress ∈ (should_defer_task_full info level).2 ↔
        ruleStress info level)
    ∧ ¬ (DeferReason.batteryCriticallyLow ∈ (should_defer_task_full info level).2 ∧
         DeferReason.batteryLow ∈ (should_defer_task_full info level).2)
    ∧ ¬ (DeferReason.systemOverheating ∈ (should_defer_task_full info level).2 ∧
         DeferReason.systemHot ∈ (should_defer_task_full info level).2)
    ∧ should_defer_task_full {} level = (false, []) := by
  have hA : DeferReason.batteryCriticallyLow ∈ (should_defer_task_full info level).2 ↔
      ruleBatteryCritical info level := by
    simp only [should_defer_task_full, List.mem_append, mem_rulePair, mem_ruleSingle,
      ruleBatteryCritical]
    simp
  have hB : DeferReason.batteryLow ∈ (should_defer_task_full info level).2 ↔
      (¬ ruleBatteryCritical info level ∧ ruleBatteryLow info level) := by
    simp only [should_defer_task_full, List.mem_append, mem_rulePair, mem_ruleSingle,
      ruleBatteryCritical, ruleBatteryLow]
    simp
  have hC : DeferReason.cpuOverloaded ∈ (should_defer_task_full info level).2 ↔
      ruleCpuOverloaded info level := by
    simp only [should_defer_task_full, List.mem_append, mem_rulePair, mem_ruleSingle,
      ruleCpuOverloaded]
    simp
  have hD : DeferReason.systemOverheating ∈ (should_defer_task_full info level).2 ↔
      ruleOverheating info level := by
    simp only [should_defer_task_full, List.mem_append, mem_rulePair, mem_ruleSingle,
      ruleOverheating]
    simp
  have hE : DeferReason.systemHot ∈ (should_defer_task_full info level).2 ↔
      (¬ ruleOverheating info level ∧ ruleHot info level) := by
    simp only [should_defer_task_full, List.mem_append, mem_rulePair, mem_ruleSingle,
      ruleOverheating, ruleHot]
    simp
  have hF : DeferReason.highSystemStress ∈ (should_defer_task_full info level).2 ↔
      ruleStress info level := by
    simp only [should_defer_task_full, List.mem_append, mem_rulePair, mem_ruleSingle,
      ruleStress]
    simp
  refine ⟨?_, hA, hB, hC, hD, hE, hF, ?_, ?_, ?_⟩
  · simp only [should_defer_task_full, decide_eq_true_eq, List.length_append,
      pos_add_iff, pos_rulePair, pos_ruleSingle, ruleBatteryCritical, ruleBatteryLow,
      ruleCpuOverloaded, ruleOverheating, ruleHot, ruleStress]
    simp only [or_assoc]
  · rintro ⟨h1, h2⟩
    exact ((hB.mp h2).1) (hA.mp h1)
  · rintro ⟨h1, h2⟩
    exact ((hE.mp h2).1) (hD.mp h1)
  · norm_num [should_defer_task_full]
    exact ⟨fun h => absurd h (by decide), fun h => absurd h (by decide)⟩

end EcoScheduler

namespace EcoScheduler

/-! ## C8 -/

/-- C8: whenever every task's planned energy resolves (no `KeyError`), the
report has `completion_rate = completed/total*100` with 0 for an empty task
list, `total_energy_used` summed over completed records,
`total_energy_planned` summed over all task profiles regardless of outcome,
and `energy_efficiency = used/planned*100` with 0 when the planned total is
0; and a zero-task run state produces the all-zero report without error. -/
theorem C8_execution_report (s : SchedulerState) (planned : List Nat)
    (h : plannedEnergies s.profiles s.tasks = some planned) :
    (generate_execution_report s = some
      { total_tasks := s.tasks.length,
        completed := s.completed_tasks.length,
        deferred := s.deferred_tasks.length,
        currently_executing := s.current_executing.length,
        completion_rate :=
          if s.tasks.length = 0 then 0
          else (s.completed_tasks.length : ℚ) / (s.tasks.length : ℚ) * 100,
        total_energy_used := (s.completed_tasks.map fun r => r.energy_data.total_energy).sum,
        total_energy_planned := planned.sum,
        energy_efficiency :=
          if planned.sum = 0 then 0
          else ((s.completed_tasks.map fun r => r.energy_data.total_energy).sum : ℚ) /
            (planned.sum : ℚ) * 100,
        energy_capacity := adjust_energy_capacity s.system_info })
    ∧ (∀ (profiles : Profiles) (info : SystemInfo),
        generate_execution_report ⟨[], profiles, info, [], [], []⟩ =
          some ⟨0, 0, 0, 0, 0, 0, 0, 0, adjust_energy_capacity info⟩) := by
  constructor
  · unfold generate_execution_report
    rw [h]
    simp only [Option.some_bind, Option.pure_def, Option.some.injEq, ExecutionReport.mk.injEq]
    simp [List.isEmpty_iff, List.length_eq_zero, Function.comp_def]
  · intro profiles info
    simp [generate_execution_report, plannedEnergies]

lemma adjust_capacity_empty : adjust_energy_capacity {} = 100 := by decide

/-- C8 witness: a run of two tasks with one completed record of 10 energy
units reports a 50% completion rate and 40% energy efficiency. -/
theorem C8_execution_report_witness :
    generate_execution_report
      ⟨[⟨"a", 2⟩, ⟨"b", 3⟩], fun _ => some "low", {},
        [⟨⟨"a", 2⟩, ⟨10, 5, "low", 2⟩, 0, 0, 0⟩],
        [⟨⟨"b", 3⟩, ⟨15, 5, "low", 3⟩, []⟩], []⟩ =
      some ⟨2, 1, 1, 0, 50, 10, 25, 40, 100⟩ := by
  have h := (C8_execution_report
    ⟨[⟨"a", 2⟩, ⟨"b", 3⟩], fun _ => some "low", {},
      [⟨⟨"a", 2⟩, ⟨10, 5, "low", 2⟩, 0, 0, 0⟩],
      [⟨⟨"b", 3⟩, ⟨15, 5, "low", 3⟩, []⟩], []⟩ [10, 15] (by decide)).1
  rw [h]
  norm_num [adjust_capacity_empty]

end EcoScheduler

namespace EcoScheduler

/-! ## C5 -/

/-- Spec formula (section 4.3) for the static packing priority. -/
def specStaticPriority (info : SystemInfo) (level : String) (eps duration : Nat) : ℚ :=
  let basePriority : ℚ := if level = "low" then 3 else if level = "medium" then 2 else 1
  let efficiencyFactor : ℚ := max 1 (30 - (eps : ℚ)) / 30
  let durationFactor : ℚ := max 0.5 (10 - (duration : ℚ)) / 10
  let systemFactor : ℚ :=
    if info.on_ac.getD true = false ∧ info.battery_percent.getD 100 < 30 then
      if level = "low" then 1.5
      else if level = "high" then 0.3
      else 1.0
    else 1.0
  basePriority * efficiencyFactor * durationFactor * systemFactor

lemma packKeyLE_trans : ∀ a b c : Task × EnergyData × ℚ,
    packKeyLE a b → packKeyLE b c → packKeyLE a c := by
  intro a b c hab hbc
  simp only [packKeyLE, decide_eq_true_eq] at *
  rcases hab with h | ⟨he, hn⟩ <;> rcases hbc with h2 | ⟨he2, hn2⟩
  · exact Or.inl (lt_trans h2 h)
  · exact Or.inl (he2 ▸ h)
  · exact Or.inl (by rw [he]; exact h2)
  · exact Or.inr ⟨he.trans he2, le_trans hn hn2⟩

lemma packKeyLE_total : ∀ a b : Task × EnergyData × ℚ,
    packKeyLE a b || packKeyLE b a := by
  intro a b
  simp only [packKeyLE, Bool.or_eq_true, decide_eq_true_eq]
  rcases lt_trichotomy a.2.2 b.2.2 with h | h | h
  · exact Or.inr (Or.inl h)
  · rcases Nat.le_total a.2.1.total_energy b.2.1.total_energy with hn | hn
    · exact Or.inl (Or.inr ⟨h, hn⟩)
    · exact Or.inr (Or.inr ⟨h.symm, hn⟩)
  · exact Or.inl (Or.inl h)

/-- C5: the static priority the slot-packing strategy computes equals the
spec formula `basePriority * efficiencyFactor * durationFactor *
systemFactor` with the spec tables, whenever the tier is one of the three
known values (the only values `calculate_task_energy` lets through); and
the packing order is a permutation of the priced task list, pairwise sorted
by descending priority with ties broken by ascending total energy. -/
theorem C5_static_priority (info : SystemInfo) :
    (∀ ed : EnergyData,
      ed.energy_level = "low" ∨ ed.energy_level = "medium" ∨ ed.energy_level = "high" →
      get_task_priority info ed =
        some (specStaticPriority info ed.energy_level ed.energy_per_second ed.duration))
    ∧ (∀ items : List (Task × EnergyData × ℚ),
        List.Perm (items.mergeSort packKeyLE) items
        ∧ (items.mergeSort packKeyLE).Pairwise fun a b =>
            b.2.2 < a.2.2 ∨ (a.2.2 = b.2.2 ∧ a.2.1.total_energy ≤ b.2.1.total_energy)) := by
  constructor
  · intro ed h
    rcases h with h | h | h <;>
      simp [get_task_priority, staticBasePriorityTable, specStaticPriority, h]
  · intro items
    refine ⟨List.mergeSort_perm items packKeyLE, ?_⟩
    have hs := List.sorted_mergeSort packKeyLE_trans packKeyLE_total items
    exact hs.imp fun h => by simpa [packKeyLE, decide_eq_true_eq] using h

/-- C5 witness: a high-tier 10-second task at full battery gets priority
`1 * (1/30) * (1/20) * 1 = 1/600`, and a two-item list sorts the
higher-priority item first. -/
theorem C5_static_priority_witness :
    get_task_priority {} ⟨300, 30, "high", 10⟩ = some (1 / 600) ∧
    ([(⟨"a", 1⟩, ⟨5, 5, "low", 1⟩, (5 : ℚ)), (⟨"b", 1⟩, ⟨30, 30, "high", 1⟩, (1 : ℚ))].mergeSort
        packKeyLE).Pairwise fun a b =>
      b.2.2 < a.2.2 ∨ (a.2.2 = b.2.2 ∧ a.2.1.total_energy ≤ b.2.1.total_energy) := by
  constructor
  · have h := (C5_static_priority {}).1 ⟨300, 30, "high", 10⟩ (Or.inr (Or.inr rfl))
    rw [h]
    simp [specStaticPriority, (by decide : ¬ ("high" : String) = "low"),
      (by decide : ¬ ("high" : String) = "medium")]
    norm_num
  · exact ((C5_static_priority {}).2 _).2

/-! ## C6 -/

/-- Spec formula (section 4.3) for the dynamic adaptive priority. -/
def specDynamicPriority (info : SystemInfo) (level : String) : ℚ :=
  (if level = "low" then 1 else if level = "medium" then 2
   else if level = "high" then 3 else 2) *
    info.battery_factor.getD 1.0 * info.cpu_factor.getD 1.0 *
    info.thermal_factor.getD 1.0 * info.power_factor.getD 1.0 *
    (if level = "low" then 1.0 else if level = "medium" then 1.2
     else if level = "high" then 1.5 else 1.0)

lemma dynPriorityGE_trans : ∀ a b c : Task × PriorityInfo,
    dynPriorityGE a b → dynPriorityGE b c → dynPriorityGE a c := by
  intro a b c hab hbc
  simp only [dynPriorityGE, decide_eq_true_eq] at *
  exact le_trans hbc hab

lemma dynPriorityGE_total : ∀ a b : Task × PriorityInfo,
    dynPriorityGE a b || dynPriorityGE b a := by
  intro a b
  simp only [dynPriorityGE, Bool.or_eq_true, decide_eq_true_eq]
  exact (le_total b.2.adapted_priority a.2.adapted_priority)

/-- C6: the adapted priority of the sequential strategy equals the spec
formula `basePriority * batteryFactor * cpuFactor * thermalFactor *
powerFactor * energyMultiplier` with the spec tables and defaults of 1.0
for absent factors; the execution order is a permutation of the priced
task list, pairwise sorted by descending adapted priority; and the sort is
stable: any two entries in input order whose priorities are already
non-increasing stay in that order. -/
theorem C6_dynamic_priority (profiles : Profiles) (info : SystemInfo) :
    (∀ task, (calculate_dynamic_priority profiles info task).adapted_priority =
        specDynamicPriority info ((profiles task.name).getD "medium"))
    ∧ (∀ tasks, List.Perm (run_scheduler_order profiles info tasks)
        (tasks.map fun t => (t, calculate_dynamic_priority profiles info t)))
    ∧ (∀ tasks, (run_scheduler_order profiles info tasks).Pairwise fun a b =>
        b.2.adapted_priority ≤ a.2.adapted_priority)
    ∧ (∀ tasks (a b : Task × PriorityInfo),
        [a, b].Sublist (tasks.map fun t => (t, calculate_dynamic_priority profiles info t)) →
        b.2.adapted_priority ≤ a.2.adapted_priority →
        [a, b].Sublist (run_scheduler_order profiles info tasks)) := by
  refine ⟨?_, ?_, ?_, ?_⟩
  · intro task
    by_cases h1 : (profiles task.name).getD "medium" = "low"
    · simp [calculate_dynamic_priority, specDynamicPriority, h1]; try ring
    · by_cases h2 : (profiles task.name).getD "medium" = "medium"
      · simp [calculate_dynamic_priority, specDynamicPriority, h1, h2]; try ring
      · by_cases h3 : (profiles task.name).getD "medium" = "high"
        · simp [calculate_dynamic_priority, specDynamicPriority, h1, h2, h3]; try ring
        · simp [calculate_dynamic_priority, specDynamicPriority, h1, h2, h3]; try ring
  · intro tasks
    exact List.mergeSort_perm _ dynPriorityGE
  · intro tasks
    have hs := List.sorted_mergeSort dynPriorityGE_trans dynPriorityGE_total
      (tasks.map fun t => (t, calculate_dynamic_priority profiles info t))
    exact hs.imp fun h => by simpa [dynPriorityGE, decide_eq_true_eq] using h
  · intro tasks a b hsub hle
    exact List.pair_sublist_mergeSort dynPriorityGE_trans dynPriorityGE_total
      (by simpa [dynPriorityGE, decide_eq_true_eq] using hle) hsub

/-- C6 witness: two medium-tier tasks have equal adapted priority 2.4 under
a battery factor, and the stable sort keeps them in input order. -/
theorem C6_dynamic_priority_witness :
    (calculate_dynamic_priority (fun _ => none) { battery_factor := some 1.0 }
        ⟨"a", 1⟩).adapted_priority = 12 / 5 ∧
    [(⟨"a", 1⟩, calculate_dynamic_priority (fun _ => none) { battery_factor := some 1.0 } ⟨"a", 1⟩),
     (⟨"b", 2⟩, calculate_dynamic_priority (fun _ => none) { battery_factor := some 1.0 } ⟨"b", 2⟩)].Sublist
      (run_scheduler_order (fun _ => none) { battery_factor := some 1.0 } [⟨"a", 1⟩, ⟨"b", 2⟩]) := by
  constructor
  · have h := (C6_dynamic_priority (fun _ => none) { battery_factor := some 1.0 }).1 ⟨"a", 1⟩
    rw [h]
    simp [specDynamicPriority, (by decide : ¬ ("medium" : String) = "low"),
      (by decide : ¬ ("medium" : String) = "high")]
    norm_num
  · refine (C6_dynamic_priority (fun _ => none) { battery_factor := some 1.0 }).2.2.2
      [⟨"a", 1⟩, ⟨"b", 2⟩] _ _ (by simp) ?_
    simp [calculate_dynamic_priority]

end EcoScheduler

namespace EcoScheduler

/-! ## C1 and C2: the packing pass -/

lemma energyPerSecondTable_valid {level : String} {eps : Nat}
    (h : energyPerSecondTable level = some eps) :
    level = "low" ∨ level = "medium" ∨ level = "high" := by
  unfold energyPerSecondTable at h
  split_ifs at h with h1 h2 h3
  · exact Or.inl h1
  · exact Or.inr (Or.inl h2)
  · exact Or.inr (Or.inr h3)

lemma calculate_level_valid {profiles : Profiles} {task : Task} {ed : EnergyData}
    (h : calculate_task_energy profiles task = some ed) :
    ed.energy_level = "low" ∨ ed.energy_level = "medium" ∨ ed.energy_level = "high" := by
  simp only [calculate_task_energy] at h
  cases htab : energyPerSecondTable ((profiles task.name).getD "medium") with
  | none => rw [htab] at h; simp at h
  | some eps =>
    rw [htab] at h
    simp only [Option.some.injEq] at h
    have hl : ed.energy_level = (profiles task.name).getD "medium" := by
      rw [← h]
    rw [hl]
    exact energyPerSecondTable_valid htab

lemma get_task_priority_some {profiles : Profiles} (info : SystemInfo)
    {task : Task} {ed : EnergyData}
    (h : calculate_task_energy profiles task = some ed) :
    ∃ P, get_task_priority info ed = some P := by
  rcases calculate_level_valid h with hl | hl | hl <;>
    simp [get_task_priority, staticBasePriorityTable, hl]

lemma scheduleItem_fst {profiles : Profiles} {info : SystemInfo} {task : Task}
    {x : Task × EnergyData × ℚ} (h : scheduleItem profiles info task = some x) :
    x.1 = task := by
  unfold scheduleItem at h
  cases hc : calculate_task_energy profiles task with
  | none => rw [hc] at h; simp at h
  | some ed =>
    rw [hc] at h
    simp only [Option.bind_eq_bind, Option.some_bind] at h
    cases hp : get_task_priority info ed with
    | none => rw [hp] at h; simp at h
    | some p =>
      rw [hp] at h
      simp only [Option.some_bind, Option.pure_def, Option.some.injEq] at h
      rw [← h]

lemma scheduleItems_map_fst {profiles : Profiles} {info : SystemInfo} :
    ∀ {tasks : List Task} {items : List (Task × EnergyData × ℚ)},
      scheduleItems profiles info tasks = some items →
      items.map (fun x => x.1) = tasks
  | [], items, h => by
    simp only [scheduleItems, Option.some.injEq] at h
    simp [← h]
  | t :: ts, items, h => by
    unfold scheduleItems at h
    cases hx : scheduleItem profiles info t with
    | none => rw [hx] at h; simp at h
    | some x =>
      rw [hx] at h
      simp only [Option.bind_eq_bind, Option.some_bind] at h
      cases hxs : scheduleItems profiles info ts with
      | none => rw [hxs] at h; simp at h
      | some xs =>
        rw [hxs] at h
        simp only [Option.some_bind, Option.pure_def, Option.some.injEq] at h
        rw [← h]
        simp only [List.map_cons, scheduleItem_fst hx, scheduleItems_map_fst hxs]

end EcoScheduler

namespace EcoScheduler

/-- The closed slot built from the open slot of a packing state. -/
def closeSlot (s : PackState) : TimeSlot :=
  ⟨s.slot_start_time, s.slot_start_time + 60, s.current_slot_tasks, s.current_slot_energy⟩

lemma packStep_eq_fits (capacity : ℤ) (s : PackState) (item : Task × EnergyData)
    (h : (s.current_slot_energy : ℤ) + (item.2.total_energy : ℤ) ≤ capacity) :
    packStep capacity s item =
      { s with
        current_slot_tasks := s.current_slot_tasks ++
          [⟨item.1, item.2,
            s.slot_start_time + (s.current_slot_energy : ℚ) / (item.2.energy_per_second : ℚ),
            s.slot_start_time + ((s.current_slot_energy : ℚ) + (item.2.total_energy : ℚ)) /
              (item.2.energy_per_second : ℚ)⟩],
        current_slot_energy := s.current_slot_energy + item.2.total_energy } := by
  simp only [packStep]
  rw [if_pos h]

lemma packStep_eq_over_empty (capacity : ℤ) (s : PackState) (item : Task × EnergyData)
    (h : ¬ ((s.current_slot_energy : ℤ) + (item.2.total_energy : ℤ) ≤ capacity))
    (hemp : s.current_slot_tasks = []) :
    packStep capacity s item =
      ⟨s.time_slots,
       [⟨item.1, item.2, s.slot_start_time + 60 * (s.time_slots.length : ℚ),
         s.slot_start_time + 60 * (s.time_slots.length : ℚ) + (item.2.duration : ℚ)⟩],
       item.2.total_energy,
       s.slot_start_time + 60 * (s.time_slots.length : ℚ)⟩ := by
  simp only [packStep]
  rw [if_neg h]
  simp [hemp]

lemma packStep_eq_over_nonempty (capacity : ℤ) (s : PackState) (item : Task × EnergyData)
    (h : ¬ ((s.current_slot_energy : ℤ) + (item.2.total_energy : ℤ) ≤ capacity))
    (hemp : s.current_slot_tasks ≠ []) :
    packStep capacity s item =
      ⟨s.time_slots ++ [closeSlot s],
       [⟨item.1, item.2,
         s.slot_start_time + 60 * ((s.time_slots ++ [closeSlot s]).length : ℚ),
         s.slot_start_time + 60 * ((s.time_slots ++ [closeSlot s]).length : ℚ) +
           (item.2.duration : ℚ)⟩],
       item.2.total_energy,
       s.slot_start_time + 60 * ((s.time_slots ++ [closeSlot s]).length : ℚ)⟩ := by
  simp only [packStep, closeSlot]
  rw [if_neg h]
  rw [if_neg (by simpa [List.isEmpty_iff] using hemp)]

/-- The energy invariant of one closed time slot: within capacity, or a
single task whose energy alone exceeds capacity. -/
def slotEnergyOK (capacity : ℤ) (slot : TimeSlot) : Prop :=
  (slot.total_energy : ℤ) ≤ capacity ∨
    ∃ st : SlotTask, slot.tasks = [st] ∧ capacity < (st.energy_data.total_energy : ℤ)

/-- The packing-loop invariant: every closed slot satisfies the energy
invariant and is non-empty, and the open slot is within capacity or a
single oversized task. -/
def packInv (capacity : ℤ) (s : PackState) : Prop :=
  (∀ slot ∈ s.time_slots, slotEnergyOK capacity slot ∧ slot.tasks ≠ [])
  ∧ ((s.current_slot_energy : ℤ) ≤ capacity ∨
      ∃ st : SlotTask, s.current_slot_tasks = [st] ∧
        capacity < (st.energy_data.total_energy : ℤ))

lemma packStep_inv {capacity : ℤ} {s : PackState} (item : Task × EnergyData)
    (h : packInv capacity s) : packInv capacity (packStep capacity s item) := by
  obtain ⟨hclosed, hopen⟩ := h
  by_cases hfit : (s.current_slot_energy : ℤ) + (item.2.total_energy : ℤ) ≤ capacity
  · rw [packStep_eq_fits capacity s item hfit]
    refine ⟨hclosed, Or.inl ?_⟩
    push_cast
    push_cast at hfit
    linarith
  · by_cases hemp : s.current_slot_tasks = []
    · rw [packStep_eq_over_empty capacity s item hfit hemp]
      refine ⟨hclosed, ?_⟩
      rcases le_or_lt (item.2.total_energy : ℤ) capacity with hc | hc
      · exact Or.inl hc
      · exact Or.inr ⟨_, rfl, hc⟩
    · rw [packStep_eq_over_nonempty capacity s item hfit hemp]
      refine ⟨?_, ?_⟩
      · intro slot hmem
        rcases List.mem_append.mp hmem with hm | hm
        · exact hclosed slot hm
        · rw [List.mem_singleton.mp hm]
          exact ⟨hopen, hemp⟩
      · rcases le_or_lt (item.2.total_energy : ℤ) capacity with hc | hc
        · exact Or.inl hc
        · exact Or.inr ⟨_, rfl, hc⟩

lemma packInv_foldl {capacity : ℤ} :
    ∀ (items : List (Task × EnergyData)) (s : PackState), packInv capacity s →
      packInv capacity (items.foldl (packStep capacity) s)
  | [], _, h => h
  | item :: rest, s, h =>
    packInv_foldl rest (packStep capacity s item) (packStep_inv item h)

lemma packTasks_slots_ok {capacity : ℤ} (hcap : 0 ≤ capacity)
    (items : List (Task × EnergyData)) :
    ∀ slot ∈ packTasks capacity items, slotEnergyOK capacity slot ∧ slot.tasks ≠ [] := by
  obtain ⟨hclosed, hopen⟩ :
      packInv capacity (items.foldl (packStep capacity) ⟨[], [], 0, 0⟩) :=
    packInv_foldl items _ ⟨by simp, Or.inl (by simpa using hcap)⟩
  simp only [packTasks]
  split_ifs with hemp
  · exact hclosed
  · intro slot hmem
    rcases List.mem_append.mp hmem with hm | hm
    · exact hclosed slot hm
    · rw [List.mem_singleton.mp hm]
      refine ⟨hopen, ?_⟩
      simpa [List.isEmpty_iff] using hemp

end EcoScheduler

namespace EcoScheduler

/-- The tasks of a slot list, paired with their energy data, in slot
order. -/
def slotItems (slots : List TimeSlot) : List (Task × EnergyData) :=
  (slots.map fun slot => slot.tasks.map fun st => (st.task, st.energy_data)).flatten

/-- All items held by a packing state: the closed slots followed by the
open slot. -/
def stateItems (s : PackState) : List (Task × EnergyData) :=
  slotItems s.time_slots ++ s.current_slot_tasks.map fun st => (st.task, st.energy_data)

lemma slotItems_append (l₁ l₂ : List TimeSlot) :
    slotItems (l₁ ++ l₂) = slotItems l₁ ++ slotItems l₂ := by
  simp [slotItems]

lemma slotItems_singleton (slot : TimeSlot) :
    slotItems [slot] = slot.tasks.map fun st => (st.task, st.energy_data) := by
  simp [slotItems]

lemma stateItems_step (capacity : ℤ) (s : PackState) (item : Task × EnergyData) :
    stateItems (packStep capacity s item) = stateItems s ++ [item] := by
  by_cases hfit : (s.current_slot_energy : ℤ) + (item.2.total_energy : ℤ) ≤ capacity
  · rw [packStep_eq_fits capacity s item hfit]
    simp [stateItems]
  · by_cases hemp : s.current_slot_tasks = []
    · rw [packStep_eq_over_empty capacity s item hfit hemp]
      simp [stateItems, hemp]
    · rw [packStep_eq_over_nonempty capacity s item hfit hemp]
      simp [stateItems, slotItems_append, slotItems_singleton, closeSlot]

lemma stateItems_foldl (capacity : ℤ) :
    ∀ (items : List (Task × EnergyData)) (s : PackState),
      stateItems (items.foldl (packStep capacity) s) = stateItems s ++ items
  | [], s => by simp
  | item :: rest, s => by
    rw [List.foldl_cons, stateItems_foldl capacity rest (packStep capacity s item),
      stateItems_step capacity s item]
    simp

lemma packTasks_items (capacity : ℤ) (items : List (Task × EnergyData)) :
    slotItems (packTasks capacity items) = items := by
  have hst : stateItems (items.foldl (packStep capacity) ⟨[], [], 0, 0⟩) = items := by
    rw [stateItems_foldl]
    simp [stateItems, slotItems]
  simp only [packTasks]
  generalize hgen : items.foldl (packStep capacity) ⟨[], [], 0, 0⟩ = s at hst
  split_ifs with hemp
  · rw [← hst]
    simp [stateItems, List.isEmpty_iff.mp hemp]
  · rw [slotItems_append, slotItems_singleton, ← hst]
    rfl

end EcoScheduler

namespace EcoScheduler

lemma adjust_capacity_ge_twenty (info : SystemInfo) :
    (20 : ℤ) ≤ adjust_energy_capacity info := by
  simp only [adjust_energy_capacity]
  exact le_max_left _ _

lemma create_schedule_eq {profiles : Profiles} {info : SystemInfo}
    {tasks : List Task} {slots : List TimeSlot}
    (h : create_optimal_schedule profiles info tasks = some slots) :
    ∃ items, scheduleItems profiles info tasks = some items ∧
      slots = packTasks (adjust_energy_capacity info)
        ((items.mergeSort packKeyLE).map fun x => (x.1, x.2.1)) := by
  unfold create_optimal_schedule at h
  cases hit : scheduleItems profiles info tasks with
  | none => rw [hit] at h; simp at h
  | some items =>
    rw [hit] at h
    simp only [Option.bind_eq_bind, Option.some_bind, Option.pure_def,
      Option.some.injEq] at h
    exact ⟨items, rfl, h.symm⟩

lemma create_single_over {profiles : Profiles} {info : SystemInfo}
    {t : Task} {ed : EnergyData}
    (hcalc : calculate_task_energy profiles t = some ed)
    (hover : adjust_energy_capacity info < (ed.total_energy : ℤ)) :
    create_optimal_schedule profiles info [t] =
      some [⟨0, 60, [⟨t, ed, 0, (ed.duration : ℚ)⟩], ed.total_energy⟩] := by
  obtain ⟨P, hP⟩ := get_task_priority_some info hcalc
  have hsi : scheduleItems profiles info [t] = some [(t, ed, P)] := by
    simp [scheduleItems, scheduleItem, hcalc, hP]
  unfold create_optimal_schedule
  rw [hsi]
  simp only [Option.bind_eq_bind, Option.some_bind, Option.pure_def, Option.some.injEq,
    List.mergeSort_singleton, List.map_cons, List.map_nil]
  have hnofit : ¬ ((((⟨[], [], 0, 0⟩ : PackState).current_slot_energy : ℤ)) +
      (((t, ed) : Task × EnergyData).2.total_energy : ℤ) ≤ adjust_energy_capacity info) := by
    simp only []
    push_cast
    omega
  simp only [packTasks, List.foldl_cons, List.foldl_nil]
  rw [packStep_eq_over_empty _ _ _ hnofit rfl]
  norm_num [TimeSlot.mk.injEq, SlotTask.mk.injEq]

/-- C1: in every timetable the slot-packing strategy produces, every slot's
total energy is at most the computed capacity unless the slot holds a
single task whose energy alone exceeds capacity; and packing a single task
whose energy exceeds capacity yields exactly one slot containing exactly
that task. -/
theorem C1_slot_energy_invariant (profiles : Profiles) (info : SystemInfo) :
    (∀ (tasks : List Task) (slots : List TimeSlot),
      create_optimal_schedule profiles info tasks = some slots →
      ∀ slot ∈ slots, (slot.total_energy : ℤ) ≤ adjust_energy_capacity info ∨
        ∃ st : SlotTask, slot.tasks = [st] ∧
          adjust_energy_capacity info < (st.energy_data.total_energy : ℤ))
    ∧ (∀ (t : Task) (ed : EnergyData), calculate_task_energy profiles t = some ed →
        adjust_energy_capacity info < (ed.total_energy : ℤ) →
        create_optimal_schedule profiles info [t] =
          some [⟨0, 60, [⟨t, ed, 0, (ed.duration : ℚ)⟩], ed.total_energy⟩]) := by
  constructor
  · intro tasks slots h slot hmem
    obtain ⟨items, hit, hslots⟩ := create_schedule_eq h
    have hcap : (0 : ℤ) ≤ adjust_energy_capacity info :=
      le_trans (by norm_num) (adjust_capacity_ge_twenty info)
    exact (packTasks_slots_ok hcap _ slot (hslots ▸ hmem)).1
  · intro t ed hcalc hover
    exact create_single_over hcalc hover

/-- C1 witness: a single high-tier 10-second task (energy 300) against
capacity 100 packs into exactly one slot containing exactly that task. -/
theorem C1_slot_energy_invariant_witness :
    create_optimal_schedule (fun _ => some "high") {} [⟨"x", 10⟩] =
      some [⟨0, 60, [⟨⟨"x", 10⟩, ⟨300, 30, "high", 10⟩, 0, ((10 : ℕ) : ℚ)⟩], 300⟩] :=
  (C1_slot_energy_invariant (fun _ => some "high") {}).2 ⟨"x", 10⟩ ⟨300, 30, "high", 10⟩
    (by decide) (by decide)

/-- C2: every task appears in exactly one slot of the produced timetable
(the flattened slot contents are a permutation of the task list), every
slot is non-empty, and a non-empty task list yields at least one slot. -/
theorem C2_packing_completeness (profiles : Profiles) (info : SystemInfo)
    (tasks : List Task) (slots : List TimeSlot)
    (h : create_optimal_schedule profiles info tasks = some slots) :
    List.Perm ((slots.map fun slot => slot.tasks.map fun st => st.task).flatten) tasks
    ∧ (∀ slot ∈ slots, slot.tasks ≠ [])
    ∧ (tasks ≠ [] → slots ≠ []) := by
  obtain ⟨items, hit, hslots⟩ := create_schedule_eq h
  have hflat : slotItems slots = (items.mergeSort packKeyLE).map fun x => (x.1, x.2.1) := by
    rw [hslots, packTasks_items]
  have htaskflat : (slots.map fun slot => slot.tasks.map fun st => st.task).flatten
      = (slotItems slots).map fun x => x.1 := by
    simp [slotItems, List.map_flatten, List.map_map, Function.comp_def]
  have hperm : List.Perm ((slots.map fun slot => slot.tasks.map fun st => st.task).flatten)
      tasks := by
    rw [htaskflat, hflat, List.map_map]
    have hp : List.Perm (items.mergeSort packKeyLE) items := List.mergeSort_perm items packKeyLE
    have hp2 := hp.map ((fun x => x.1) ∘ fun x : Task × EnergyData × ℚ => (x.1, x.2.1))
    have : items.map ((fun x => x.1) ∘ fun x : Task × EnergyData × ℚ => (x.1, x.2.1))
        = tasks := by
      rw [show ((fun x : Task × EnergyData => x.1) ∘
          fun x : Task × EnergyData × ℚ => (x.1, x.2.1)) = fun x => x.1 from rfl]
      exact scheduleItems_map_fst hit
    rw [this] at hp2
    exact hp2
  refine ⟨hperm, ?_, ?_⟩
  · intro slot hmem
    have hcap : (0 : ℤ) ≤ adjust_energy_capacity info :=
      le_trans (by norm_num) (adjust_capacity_ge_twenty info)
    exact (packTasks_slots_ok hcap _ slot (hslots ▸ hmem)).2
  · intro hne hslnil
    apply hne
    have : (slots.map fun slot => slot.tasks.map fun st => st.task).flatten = [] := by
      rw [hslnil]; rfl
    rw [this] at hperm
    exact (hperm.symm.eq_nil)

/-- C2 witness: the one-slot timetable of a single oversized task holds
exactly that task and is non-empty. -/
theorem C2_packing_completeness_witness :
    List.Perm ((([⟨0, 60, [⟨⟨"x", 10⟩, ⟨300, 30, "high", 10⟩, 0, ((10 : ℕ) : ℚ)⟩],
        300⟩] : List TimeSlot).map fun slot => slot.tasks.map fun st => st.task).flatten)
      [⟨"x", 10⟩]
    ∧ (([⟨0, 60, [⟨⟨"x", 10⟩, ⟨300, 30, "high", 10⟩, 0, ((10 : ℕ) : ℚ)⟩], 300⟩] :
        List TimeSlot) ≠ []) := by
  have h := C2_packing_completeness (fun _ => some "high") {} [⟨"x", 10⟩]
    [⟨0, 60, [⟨⟨"x", 10⟩, ⟨300, 30, "high", 10⟩, 0, ((10 : ℕ) : ℚ)⟩], 300⟩]
    (create_single_over (by decide) (by decide))
  exact ⟨h.1, h.2.2 (by simp)⟩

end EcoScheduler

namespace EcoScheduler

/-- C3 witness: a medium-tier task on a hot, CPU-overloaded system is
deferred by the full policy. -/
theorem C3_full_deferral_policy_witness :
    (should_defer_task_full { temperature := some 75, load_category := some "high" }
        "medium").1 = true := by
  refine ((C3_full_deferral_policy
    { temperature := some 75, load_category := some "high" } "medium").1).mpr ?_
  refine Or.inr (Or.inr (Or.inl ⟨by decide, Or.inr rfl⟩))

/-- The system state of the C7 witness: 45% battery, off AC, medium load. -/
def infoBattery45 : SystemInfo :=
  { battery_percent := some 45, on_ac := some false, load_category := some "medium" }

/-- C7 witness: at 45% battery off AC under medium load the capacity is
`int(100*0.7*0.8) = 56`, within the stated bounds. -/
theorem C7_energy_capacity_model_witness :
    adjust_energy_capacity infoBattery45 =
      max 20 ⌊(100 : ℚ) * specBatteryMultiplier infoBattery45 * specLoadMultiplier infoBattery45⌋
    ∧ 20 ≤ adjust_energy_capacity infoBattery45
    ∧ adjust_energy_capacity infoBattery45 ≤ 100 :=
  C7_energy_capacity_model infoBattery45

end EcoScheduler
